import Mathlib

/-!
# Shallow embedding of the `youtube_studio_analytics` Home Assistant integration

This file embeds the parts of the repository that the specification's claims
are about:

* `api.py` — the metrics client (`async_get_channel_statistics`,
  `async_get_analytics_metrics`, `async_get_all_metrics`);
* `coordinator.py` — `YouTubeAnalyticsDataUpdateCoordinator._async_update_data`;
* `sensor.py` — `YouTubeAnalyticsSensor.native_value` and the set of metric
  keys for which sensor entities are created;
* `config_flow.py` — the reauth branch of `async_oauth_create_entry` and the
  manual channel-id entry step `async_step_channel_entry`;
* `__init__.py` — the update-interval selection in `async_setup_entry`;
* `const.py` — the metric-key lists and `DEFAULT_UPDATE_INTERVAL`.

Python dictionaries are modelled as association lists over string keys with
an overwrite-on-set discipline; JSON-ish values are modelled by an inductive
`Value` type (numbers as rationals, strings, booleans, and `null`).  The
network is abstracted away: each client call receives, as input, either the
decoded response the Google client library would hand back or the exception
it would raise (`FetchErr`), and the embedding computes the dictionary the
Python function returns from it.
-/

namespace YTA

/-- A JSON-ish value stored in the result dictionaries: Python numbers are
modelled as rationals, plus strings, booleans and `None`. -/
inductive Value where
  | num (q : ℚ)
  | str (s : String)
  | bool (b : Bool)
  | null
deriving DecidableEq, Repr

/-- A Python `dict[str, Any]`, modelled as an association list in insertion
order with at most one binding per key. -/
def Dict : Type := List (String × Value)

instance : DecidableEq Dict := inferInstanceAs (DecidableEq (List (String × Value)))

instance : Repr Dict := inferInstanceAs (Repr (List (String × Value)))

/-- `d[k] = v`, as for a Python dict assignment: overwrite in place when the
key is present (keeping its position), append otherwise. -/
def Dict.set : Dict → String → Value → Dict
  | [], k, v => [(k, v)]
  | p :: t, k, v => if p.1 = k then (k, v) :: t else p :: Dict.set t k v

/-- `d.get(k)`: `none` when the key is absent. -/
def Dict.get? (d : Dict) (k : String) : Option Value :=
  (d.find? fun p => p.1 = k).map Prod.snd

/-- The key list of a dictionary, in insertion order. -/
def Dict.keys (d : Dict) : List String := d.map Prod.fst

/-- The exceptions the Google client calls can raise, as classified by the
`except` clauses of `api.py`:
`RefreshError` (token refresh failed), `HttpError` (with `err.resp.status`
and the message `str(err)`), or any other exception (with message
`str(err)`). -/
inductive FetchErr where
  | refreshError (msg : String)
  | httpError (status : Nat) (msg : String)
  | otherError (msg : String)
deriving DecidableEq, Repr

/-- The dictionary returned by the (identical) `except` clauses of
`async_get_channel_statistics` and `async_get_analytics_metrics` in
`api.py`: `RefreshError` and HTTP 401 yield `{"error": "auth_failed",
"error_detail": str(err)}`; any other `HttpError`, and any other exception,
yield `{"error": str(err)}`. -/
def errorDict : FetchErr → Dict
  | .refreshError m => [("error", .str "auth_failed"), ("error_detail", .str m)]
  | .httpError s m =>
      if s = 401 then [("error", .str "auth_failed"), ("error_detail", .str m)]
      else [("error", .str m)]
  | .otherError m => [("error", .str m)]

/-- One item of a `channels().list(part="statistics,snippet")` response:
the fields `async_get_channel_statistics` reads, each optional because the
code supplies defaults via `.get`.  `subscriberCount`/`videoCount`/
`viewCount` are modelled after `int(...)` conversion. -/
structure ChannelItem where
  title : Option String
  subscriberCount : Option ℤ
  videoCount : Option ℤ
  viewCount : Option ℤ
  hiddenSubscriberCount : Option Bool
deriving DecidableEq, Repr

/-- `api.py`, `async_get_channel_statistics`: on a decoded response the
items list is inspected (`"items" in response and len(...) > 0`); the first
item's statistics/snippet are flattened with defaults
(`"Unknown"`, `0`, `0`, `0`, `False`); an empty items list yields
`{"error": "Channel not found"}`; an exception is classified by
`errorDict`. -/
def async_get_channel_statistics (resp : Except FetchErr (List ChannelItem)) : Dict :=
  match resp with
  | .ok [] => [("error", .str "Channel not found")]
  | .ok (ch :: _) =>
      [("channel_title", .str (ch.title.getD "Unknown")),
       ("subscriber_count", .num (ch.subscriberCount.getD 0 : ℤ)),
       ("video_count", .num (ch.videoCount.getD 0 : ℤ)),
       ("view_count", .num (ch.viewCount.getD 0 : ℤ)),
       ("hidden_subscriber_count", .bool (ch.hiddenSubscriberCount.getD false))]
  | .error e => errorDict e

/-- A decoded `reports().query(...)` response: the rows (the code uses only
`rows[0]`) and the column headers' `name` fields (optional, because the code
defaults a missing name to `metric_<i>`). -/
structure AnalyticsResponse where
  rows : List (List Value)
  columnHeaders : List (Option String)
deriving DecidableEq, Repr

/-- `api.py`, `async_get_analytics_metrics`: on a decoded response with a
nonempty `rows`, each column header is paired positionally with
`rows[0][i]` (`None` when the row is shorter than the headers, defensively);
with no rows, `{"error": "No data returned from YouTube Analytics"}`; an
exception is classified by `errorDict`. -/
def async_get_analytics_metrics (resp : Except FetchErr AnalyticsResponse) : Dict :=
  match resp with
  | .ok r =>
      match r.rows with
      | [] => [("error", .str "No data returned from YouTube Analytics")]
      | data :: _ =>
          (r.columnHeaders.enum).foldl
            (fun d p =>
              d.set (p.2.getD ("metric_" ++ toString p.1)) ((data.get? p.1).getD .null))
            []
  | .error e => errorDict e

/-- The inputs of one poll: what the two underlying Google calls made by
`async_get_all_metrics` would return (or raise), plus the value of
`datetime.now().isoformat()`. -/
structure PollInput where
  analytics : Except FetchErr AnalyticsResponse
  channelStats : Except FetchErr (List ChannelItem)
  now : String

/-- `api.py`, `async_get_all_metrics`: fetches the 30-day analytics and the
channel statistics.  A source whose dict contains `"error"` contributes only
`error_30d` (resp. `error_lifetime`) with that error value; a successful
analytics dict is copied key-by-key (skipping a key literally named
`"error"`); a successful channel-statistics dict contributes exactly
`subscriber_count`, `video_count`, `view_count`, `channel_title` (with
defaults `0`/`"Unknown"`), i.e. **without** any `_lifetime` suffix; finally
`last_updated` is set.  No recent-videos source is fetched.  The function's
outer `except` handler (which would set a top-level `"error"` key) is not
modelled: both inner calls catch every exception they can raise and return
dictionaries instead, so for the modelled inputs it is unreachable. -/
def async_get_all_metrics (inp : PollInput) : Dict :=
  let analytics_30d := async_get_analytics_metrics inp.analytics
  let r1 : Dict :=
    if (analytics_30d.get? "error").isSome then
      Dict.set [] "error_30d" ((analytics_30d.get? "error").getD .null)
    else
      analytics_30d.foldl (fun d p => if p.1 ≠ "error" then d.set p.1 p.2 else d) []
  let channel_stats := async_get_channel_statistics inp.channelStats
  let r2 : Dict :=
    if (channel_stats.get? "error").isSome then
      r1.set "error_lifetime" ((channel_stats.get? "error").getD .null)
    else
      ((((r1.set "subscriber_count" ((channel_stats.get? "subscriber_count").getD (.num 0))).set
          "video_count" ((channel_stats.get? "video_count").getD (.num 0))).set
          "view_count" ((channel_stats.get? "view_count").getD (.num 0))).set
          "channel_title" ((channel_stats.get? "channel_title").getD (.str "Unknown")))
  r2.set "last_updated" (.str inp.now)

/-- Outcome of `_async_update_data` in `coordinator.py`: raise
`ConfigEntryAuthFailed`, raise `UpdateFailed`, or return the data. -/
inductive UpdateResult where
  | authFailed (msg : String)
  | updateFailed (msg : String)
  | ok (data : Dict)
deriving DecidableEq, Repr

/-- `coordinator.py`, `_async_update_data`: fetches `async_get_all_metrics`;
if the returned dict contains the key `"error"`, raises
`ConfigEntryAuthFailed` when that value equals `"auth_failed"` and
`UpdateFailed` otherwise; if the dict is empty, raises `UpdateFailed`;
otherwise returns the dict. -/
def async_update_data (inp : PollInput) : UpdateResult :=
  let data := async_get_all_metrics inp
  match data.get? "error" with
  | some errv =>
      let errDetail := match data.get? "error_detail" with
        | some (.str s) => s
        | _ => ""
      if errv = .str "auth_failed" then
        .authFailed ("Authentication failed: " ++
          (if errDetail = "" then "Refresh token expired" else errDetail))
      else
        .updateFailed "Error fetching data"
  | none =>
      if data = ([] : Dict) then .updateFailed "No data returned from YouTube Analytics API"
      else .ok data

/-! ## Constants from `const.py` -/

/-- `const.py`: `DEFAULT_UPDATE_INTERVAL = 3600`. -/
def DEFAULT_UPDATE_INTERVAL : Nat := 3600

/-- `const.py`: `METRICS_30D` — the 30-day metric names, already carrying
the `_30d` suffix, passed verbatim as the requested analytics metrics. -/
def METRICS_30D : List String :=
  ["views_30d", "averageViewDuration_30d", "averageViewPercentage_30d",
   "likes_30d", "dislikes_30d", "comments_30d", "shares_30d",
   "subscribersGained_30d", "subscribersLost_30d", "annotationClicks_30d",
   "annotationClickThroughRate_30d", "estimatedMinutesWatched_30d"]

/-- `const.py`: `METRICS_LIFETIME` — the lifetime metric keys the sensors
read, carrying the `_lifetime` suffix. -/
def METRICS_LIFETIME : List String :=
  ["subscriber_count_lifetime", "video_count_lifetime", "view_count_lifetime"]

/-- `const.py`: `METRICS_RECENT_VIDEOS` — the recent-videos metric keys the
sensors read, carrying the `_10vids` suffix. -/
def METRICS_RECENT_VIDEOS : List String :=
  ["recent_videos_count_10vids", "recent_videos_total_views_10vids",
   "recent_videos_total_likes_10vids", "recent_videos_total_comments_10vids"]

/-- `sensor.py`, `async_setup_entry`: one sensor entity is created per key
of `METRICS_30D`, `METRICS_LIFETIME` and `METRICS_RECENT_VIDEOS`, each
reading exactly its `metric_key` from the coordinator data. -/
def sensorMetricKeys : List String :=
  METRICS_30D ++ METRICS_LIFETIME ++ METRICS_RECENT_VIDEOS

/-! ## Sensor presentation (`sensor.py`) -/

/-- Python `round` to the nearest integer, half to even, of the fraction
`n / d` (for `d > 0`), written with integer arithmetic (floor division and
remainder) so it is kernel-computable. -/
def halfEvenFrac (n d : ℤ) : ℤ :=
  let f := n.fdiv d
  let r := n - f * d
  if 2 * r < d then f
  else if d < 2 * r then f + 1
  else if f % 2 = 0 then f else f + 1

/-- Python `round(x, 2)`: round `100 * x` (the fraction `100 n / d`) half to
even and divide back by 100. -/
def pyRound2 (x : ℚ) : ℚ := Rat.divInt (halfEvenFrac (100 * x.num) x.den) 100

/-- `x / 60`, written as the fraction `n / (60 d)` via `Rat.divInt` so the
definition is kernel-computable (`Rat.div` is `@[irreducible]`);
`divSixty_eq` below proves it equal to `x / 60`. -/
def divSixty (x : ℚ) : ℚ := Rat.divInt x.num (60 * x.den)

/-- `sensor.py`, `YouTubeAnalyticsSensor.native_value`: with no coordinator
data, `None`; otherwise `value = data.get(metric_key)` (a missing key and a
stored `None` both give Python `None`); for the key
`"estimatedMinutesWatched_30d"` a non-`None` value is converted by
`round(value / 60, 2)` (for a non-numeric value there Python's `round` would
raise a `TypeError`, so no state value results — modelled as `none`);
finally `value if value is not None else None`. -/
def native_value (metric_key : String) (coordinatorData : Option Dict) : Option Value :=
  match coordinatorData with
  | none => none
  | some data =>
      let value : Option Value :=
        match data.get? metric_key with
        | some .null => none
        | o => o
      if metric_key = "estimatedMinutesWatched_30d" then
        match value with
        | some (.num q) => some (.num (pyRound2 (divSixty q)))
        | some _ => none
        | none => none
      else value

/-! ## Config flow (`config_flow.py`) -/

/-- Python truthiness test for an optional string (`if not x`): `None` and
the empty string are falsy. -/
def isFalsy : Option String → Bool
  | none => true
  | some s => s = ""

/-- Python `a or b` on optional strings: `b` when `a` is falsy. -/
def pyOr (a b : Option String) : Option String :=
  if isFalsy a then b else a

/-- Python `str.strip()` (with no argument): remove whitespace from both
ends, modelled over the character list. -/
def pyStrip (s : String) : String :=
  ⟨((s.data.dropWhile Char.isWhitespace).reverse.dropWhile Char.isWhitespace).reverse⟩

/-- Python `s.startswith(pre)`. -/
def pyStartsWith (s pre : String) : Bool := pre.data.isPrefixOf s.data

/-- The fields of the persisted config entry the reauth path touches:
the entry's registered unique id and its `data` mapping
(`channel_id`, `channel_title` and the three token fields). -/
structure StoredEntry where
  unique_id : Option String
  channel_id : Option String
  channel_title : Option String
  refresh_token : Option String
  token : Option String
  token_expiry : Option String
deriving DecidableEq, Repr

/-- The OAuth result dict handed to `async_oauth_create_entry`
(`data.get("refresh_token")`, `data.get("token")`, `data.get("access_token")`,
`data.get("token_expiry")`). -/
structure OAuthData where
  refresh_token : Option String
  token : Option String
  access_token : Option String
  token_expiry : Option String
deriving DecidableEq, Repr

/-- `create_credentials_from_oauth_result` returns
`token_expiry or (credentials.expiry.isoformat() if credentials.expiry else None)`;
when `token_expiry` is truthy it is returned as-is (even if unparseable —
parsing failures only null the `expiry` field), and when falsy the
constructed credential has no expiry, so the result is `None`. -/
def tokenExpiryStr (te : Option String) : Option String :=
  if isFalsy te then none else te

/-- Outcome of the reauth branch of `async_oauth_create_entry`: either the
flow aborts with a reason (leaving the stored entry untouched — no update
call is made on any abort path), or the existing entry is updated via
`async_update_reload_and_abort` with the given new entry data. -/
inductive ReauthOutcome where
  | abort (reason : String)
  | updateEntry (e : StoredEntry)
deriving DecidableEq, Repr

/-- `config_flow.py`, `async_oauth_create_entry`, reauth branch
(`self.source == SOURCE_REAUTH`).  Inputs beyond the stored entry and the
OAuth data: `credsExn` — `create_credentials_from_oauth_result` raised a
`HomeAssistantError` (abort `oauth_implementation_unavailable`);
`validationExn` — the token refresh / service build / channel query raised
(abort `oauth_failed`); `visibleTitle` — the title of the stored
`channel_id` as returned by `channels().list(id=channel_id)` with the *new*
credential, `none` when the response has no items (channel not accessible).
On success, `async_update_reload_and_abort` merges only
`refresh_token`/`token`/`token_expiry` into the entry's data. -/
def reauth_create_entry (entry : StoredEntry) (data : OAuthData)
    (credsExn : Bool) (validationExn : Bool) (visibleTitle : Option String) :
    ReauthOutcome :=
  if isFalsy data.refresh_token then .abort "oauth_failed"
  else if credsExn then .abort "oauth_implementation_unavailable"
  else
    match entry.channel_id with
    | none => .abort "oauth_failed"
    | some cid =>
        if cid = "" then .abort "oauth_failed"
        else if entry.unique_id ≠ some cid then .abort "unique_id_mismatch"
        else if validationExn then .abort "oauth_failed"
        else
          match visibleTitle with
          | some _ =>
              .updateEntry { entry with
                refresh_token := data.refresh_token,
                token := pyOr data.token data.access_token,
                token_expiry := tokenExpiryStr data.token_expiry }
          | none => .abort "oauth_failed"

/-- Outcome of the manual channel-entry wizard step: re-show the form with
field-level errors, or store the channel id and advance to the OAuth
(`pick_implementation`) step. -/
inductive ChannelEntryOutcome where
  | showForm (errors : List (String × String))
  | advanceToOAuth (storedChannelId : String)
deriving DecidableEq, Repr

/-- `config_flow.py`, `async_step_channel_entry`: on first render
(`user_input is None`) show the form with no errors; otherwise strip the
submitted `channel_id` (missing key defaults to `""`); an empty result gives
the `channel_id_required` field error; a result that does not both start
with `"UC"` and have length 24 gives `channel_id_invalid_format`; otherwise
the id is stored on the flow and the OAuth step is entered. -/
def async_step_channel_entry : Option (Option String) → ChannelEntryOutcome
  | none => .showForm []
  | some raw =>
      let channel_id := pyStrip (raw.getD "")
      if channel_id = "" then .showForm [("channel_id", "channel_id_required")]
      else if !(pyStartsWith channel_id "UC" && channel_id.length == 24) then
        .showForm [("channel_id", "channel_id_invalid_format")]
      else .advanceToOAuth channel_id

/-! ## Setup (`__init__.py`) -/

/-- The options record of a config entry
(`{update_interval_seconds}` per the spec's external-interface section). -/
structure EntryOptions where
  update_interval_seconds : Option Nat
deriving DecidableEq, Repr

/-- `__init__.py`, `async_setup_entry`: the update interval handed to the
coordinator.  The source sets `update_interval = DEFAULT_UPDATE_INTERVAL`
unconditionally; the entry's options are never read. -/
def setup_update_interval (_opts : EntryOptions) : Nat :=
  DEFAULT_UPDATE_INTERVAL

/-! ## Spec-modelled recent-videos aggregate

The spec (§4.3) describes a third read operation,
`get_recent_video_aggregate(n=10)`, but no such function exists anywhere
under the repository's sources — only its metric-key list
(`METRICS_RECENT_VIDEOS` in `const.py`) and the sensor entities that would
read those keys (`sensor.py`) exist. -/

/-- The per-video statistics summed by the aggregate. -/
structure VideoStats where
  views : ℤ
  likes : ℤ
  comments : ℤ
deriving DecidableEq, Repr

/-- Modelled from the spec: `get_recent_video_aggregate(n=10)` is missing
from the sources; per spec §4.3 it "fetches the most recent `n` videos by
upload date for the channel, then sums per-video statistics; returns zeroed
defaults (not an error) if the channel has no videos".  The input list is
the channel's videos in most-recent-first upload order. -/
def get_recent_video_aggregate (recentVideos : List VideoStats) (n : Nat := 10) : Dict :=
  let vids := recentVideos.take n
  [("count", .num (vids.length : ℤ)),
   ("total_views", .num ((vids.map VideoStats.views).sum : ℤ)),
   ("total_likes", .num ((vids.map VideoStats.likes).sum : ℤ)),
   ("total_comments", .num ((vids.map VideoStats.comments).sum : ℤ))]

/-! ## Concrete poll inputs used by the claim theorems -/

/-- A poll in which the 30-day analytics call fails with HTTP 401 and the
channel-statistics call succeeds. -/
def poll401Analytics : PollInput :=
  { analytics := .error (.httpError 401 "<HttpError 401 Unauthorized>"),
    channelStats := .ok [⟨some "My Channel", some 1000, some 42, some 123456, some false⟩],
    now := "2026-01-01T00:00:00" }

/-- A poll in which the channel-statistics call fails with a plain network
error and the 30-day analytics call succeeds, the provider echoing the
requested (suffixed) metric names as column headers. -/
def pollStatsDown : PollInput :=
  { analytics := .ok
      { rows := [[.num 5, .num 200, .num 40, .num 7, .num 1, .num 3,
                  .num 2, .num 9, .num 4, .num 0, .num 0, .num 120]],
        columnHeaders := METRICS_30D.map some },
    channelStats := .error (.otherError "Connection reset by peer"),
    now := "2026-01-01T01:00:00" }

/-- A poll in which both calls succeed. -/
def pollAllOk : PollInput :=
  { analytics := .ok
      { rows := [[.num 5, .num 200, .num 40, .num 7, .num 1, .num 3,
                  .num 2, .num 9, .num 4, .num 0, .num 0, .num 120]],
        columnHeaders := METRICS_30D.map some },
    channelStats := .ok [⟨some "My Channel", some 1000, some 42, some 123456, some false⟩],
    now := "2026-01-01T02:00:00" }

/-- A second fully successful poll, used by a different claim. -/
def pollAllOk2 : PollInput :=
  { analytics := .ok
      { rows := [[.num 11, .num 201, .num 41, .num 8, .num 2, .num 4,
                  .num 3, .num 10, .num 5, .num 1, .num 1, .num 60]],
        columnHeaders := METRICS_30D.map some },
    channelStats := .ok [⟨some "Other Channel", some 77, some 9, some 555, some true⟩],
    now := "2026-01-01T03:00:00" }

/-! ## Helper lemmas -/

/-- `divSixty x` is `x / 60`. -/
theorem divSixty_eq (x : ℚ) : divSixty x = x / 60 := by
  rw [divSixty, Rat.divInt_eq_div]
  push_cast
  conv_rhs => rw [← Rat.num_div_den x, div_div, mul_comm]

/-- Evaluation of the analytics fetch on a decoded response whose column
headers echo the twelve requested (suffixed) metric names, with one row of
values. -/
theorem analytics_ok_eval (row : List Value) :
    async_get_analytics_metrics (.ok ⟨[row], METRICS_30D.map some⟩)
      = [("views_30d", (row.get? 0).getD .null),
         ("averageViewDuration_30d", (row.get? 1).getD .null),
         ("averageViewPercentage_30d", (row.get? 2).getD .null),
         ("likes_30d", (row.get? 3).getD .null),
         ("dislikes_30d", (row.get? 4).getD .null),
         ("comments_30d", (row.get? 5).getD .null),
         ("shares_30d", (row.get? 6).getD .null),
         ("subscribersGained_30d", (row.get? 7).getD .null),
         ("subscribersLost_30d", (row.get? 8).getD .null),
         ("annotationClicks_30d", (row.get? 9).getD .null),
         ("annotationClickThroughRate_30d", (row.get? 10).getD .null),
         ("estimatedMinutesWatched_30d", (row.get? 11).getD .null)] := by
  simp [async_get_analytics_metrics, METRICS_30D, List.enum, List.enumFrom, Dict.set]

/-- Evaluation of a whole poll in which the analytics fetch succeeds (with
headers echoing the requested names) and the channel-statistics fetch fails
with error value `errVal`. -/
theorem all_metrics_stats_err_eval (cs : Except FetchErr (List ChannelItem))
    (now : String) (errVal : Value) (row : List Value)
    (h : (async_get_channel_statistics cs).get? "error" = some errVal) :
    async_get_all_metrics ⟨.ok ⟨[row], METRICS_30D.map some⟩, cs, now⟩
      = [("views_30d", (row.get? 0).getD .null),
         ("averageViewDuration_30d", (row.get? 1).getD .null),
         ("averageViewPercentage_30d", (row.get? 2).getD .null),
         ("likes_30d", (row.get? 3).getD .null),
         ("dislikes_30d", (row.get? 4).getD .null),
         ("comments_30d", (row.get? 5).getD .null),
         ("shares_30d", (row.get? 6).getD .null),
         ("subscribersGained_30d", (row.get? 7).getD .null),
         ("subscribersLost_30d", (row.get? 8).getD .null),
         ("annotationClicks_30d", (row.get? 9).getD .null),
         ("annotationClickThroughRate_30d", (row.get? 10).getD .null),
         ("estimatedMinutesWatched_30d", (row.get? 11).getD .null),
         ("error_lifetime", errVal), ("last_updated", .str now)] := by
  simp only [async_get_all_metrics, analytics_ok_eval, h]
  simp [Dict.get?, Dict.set, List.find?]

/-! ## Claim theorems -/

/-- C1 (code evaluated at the failing input): in a poll whose 30-day
analytics call fails with an HTTP 401 response (classified `auth_failed`),
the merged result records `"auth_failed"` under the per-source key
`error_30d`, yet contains no `"error"` key — so `_async_update_data`, which
tests only `"error" in data`, returns the merged data normally, raising
neither `ConfigEntryAuthFailed` nor `UpdateFailed`, contrary to the claim
(and to the coordinator's own docstring). -/
theorem auth_failed_poll_returns_data_without_raising :
    (async_get_all_metrics poll401Analytics).get? "error_30d"
        = some (.str "auth_failed") ∧
    (async_get_all_metrics poll401Analytics).get? "error" = none ∧
    async_update_data poll401Analytics = .ok (async_get_all_metrics poll401Analytics) := by
  decide

/-- C2 (counterexample): in a poll where exactly one source (the lifetime
channel-statistics source) fails and the 30-day analytics source succeeds,
the merged result records the failure under `error_lifetime` and carries the
analytics keys — but contains none of the recent-videos source's metric
keys, so it does not hold "the other two sources' metric keys": only two
sources are ever composed. -/
theorem one_source_failure_recent_keys_absent :
    (async_get_all_metrics pollStatsDown).get? "error_lifetime"
        = some (.str "Connection reset by peer") ∧
    (async_get_all_metrics pollStatsDown).get? "views_30d" = some (.num 5) ∧
    ∀ k ∈ METRICS_RECENT_VIDEOS, (async_get_all_metrics pollStatsDown).get? k = none := by
  decide

/-- C2 (amended): partial-failure isolation holds between the two sources
that are actually composed.  If the 30-day analytics call fails (its dict
carries `"error"`) while the channel-statistics call succeeds, the merged
result records the error under `error_30d` and still carries the lifetime
values; symmetrically, if the channel-statistics call fails while the
analytics call succeeds (headers echoing the twelve requested names), the
merged result records the error under `error_lifetime` and still carries
every analytics value.  No recent-videos source exists. -/
theorem two_source_isolation (a30 : Except FetchErr AnalyticsResponse)
    (cs : Except FetchErr (List ChannelItem)) (now : String) (errVal : Value)
    (ch : ChannelItem) (rest : List ChannelItem) (row : List Value) :
    ((async_get_analytics_metrics a30).get? "error" = some errVal →
      (async_get_all_metrics ⟨a30, .ok (ch :: rest), now⟩).get? "error_30d"
          = some errVal ∧
      (async_get_all_metrics ⟨a30, .ok (ch :: rest), now⟩).get? "subscriber_count"
          = some (.num (ch.subscriberCount.getD 0 : ℤ)) ∧
      (async_get_all_metrics ⟨a30, .ok (ch :: rest), now⟩).get? "video_count"
          = some (.num (ch.videoCount.getD 0 : ℤ)) ∧
      (async_get_all_metrics ⟨a30, .ok (ch :: rest), now⟩).get? "view_count"
          = some (.num (ch.viewCount.getD 0 : ℤ)) ∧
      (async_get_all_metrics ⟨a30, .ok (ch :: rest), now⟩).get? "channel_title"
          = some (.str (ch.title.getD "Unknown"))) ∧
    ((async_get_channel_statistics cs).get? "error" = some errVal →
      (async_get_all_metrics ⟨.ok ⟨[row], METRICS_30D.map some⟩, cs, now⟩).get? "error_lifetime"
          = some errVal ∧
      (async_get_all_metrics ⟨.ok ⟨[row], METRICS_30D.map some⟩, cs, now⟩).get? "views_30d"
          = some ((row.get? 0).getD .null) ∧
      (async_get_all_metrics ⟨.ok ⟨[row], METRICS_30D.map some⟩, cs, now⟩).get? "averageViewDuration_30d"
          = some ((row.get? 1).getD .null) ∧
      (async_get_all_metrics ⟨.ok ⟨[row], METRICS_30D.map some⟩, cs, now⟩).get? "averageViewPercentage_30d"
          = some ((row.get? 2).getD .null) ∧
      (async_get_all_metrics ⟨.ok ⟨[row], METRICS_30D.map some⟩, cs, now⟩).get? "likes_30d"
          = some ((row.get? 3).getD .null) ∧
      (async_get_all_metrics ⟨.ok ⟨[row], METRICS_30D.map some⟩, cs, now⟩).get? "dislikes_30d"
          = some ((row.get? 4).getD .null) ∧
      (async_get_all_metrics ⟨.ok ⟨[row], METRICS_30D.map some⟩, cs, now⟩).get? "comments_30d"
          = some ((row.get? 5).getD .null) ∧
      (async_get_all_metrics ⟨.ok ⟨[row], METRICS_30D.map some⟩, cs, now⟩).get? "shares_30d"
          = some ((row.get? 6).getD .null) ∧
      (async_get_all_metrics ⟨.ok ⟨[row], METRICS_30D.map some⟩, cs, now⟩).get? "subscribersGained_30d"
          = some ((row.get? 7).getD .null) ∧
      (async_get_all_metrics ⟨.ok ⟨[row], METRICS_30D.map some⟩, cs, now⟩).get? "subscribersLost_30d"
          = some ((row.get? 8).getD .null) ∧
      (async_get_all_metrics ⟨.ok ⟨[row], METRICS_30D.map some⟩, cs, now⟩).get? "annotationClicks_30d"
          = some ((row.get? 9).getD .null) ∧
      (async_get_all_metrics ⟨.ok ⟨[row], METRICS_30D.map some⟩, cs, now⟩).get? "annotationClickThroughRate_30d"
          = some ((row.get? 10).getD .null) ∧
      (async_get_all_metrics ⟨.ok ⟨[row], METRICS_30D.map some⟩, cs, now⟩).get? "estimatedMinutesWatched_30d"
          = some ((row.get? 11).getD .null)) := by
  constructor
  · intro h
    simp only [async_get_all_metrics, h]
    exact ⟨rfl, rfl, rfl, rfl, rfl⟩
  · intro h
    rw [all_metrics_stats_err_eval cs now errVal row h]
    refine ⟨?_, ?_, ?_, ?_, ?_, ?_, ?_, ?_, ?_, ?_, ?_, ?_, ?_⟩ <;> rfl

/-- C2 (witness): the amended theorem applied to a concrete poll in which
the channel-statistics source fails with a network error and the analytics
source succeeds. -/
theorem two_source_isolation_witness :
    (async_get_all_metrics
        ⟨.ok ⟨[[.num 5, .num 200, .num 40, .num 7, .num 1, .num 3, .num 2,
                .num 9, .num 4, .num 0, .num 0, .num 120]], METRICS_30D.map some⟩,
          .error (.otherError "boom"), "t0"⟩).get? "error_lifetime"
        = some (.str "boom") ∧
    (async_get_all_metrics
        ⟨.ok ⟨[[.num 5, .num 200, .num 40, .num 7, .num 1, .num 3, .num 2,
                .num 9, .num 4, .num 0, .num 0, .num 120]], METRICS_30D.map some⟩,
          .error (.otherError "boom"), "t0"⟩).get? "views_30d"
        = some (.num 5) := by
  have h := (two_source_isolation
      (.error (.otherError "boom")) (.error (.otherError "boom")) "t0" (.str "boom")
      ⟨none, none, none, none, none⟩ []
      [.num 5, .num 200, .num 40, .num 7, .num 1, .num 3, .num 2,
       .num 9, .num 4, .num 0, .num 0, .num 120]).2 (by decide)
  exact ⟨h.1, h.2.1⟩

/-- C3 (counterexample): an HTTP 500 failure of the channel-statistics read
yields `error = str(err)` (the exception message), not
`"server_error_5xx"` as the claim states. -/
theorem http500_error_is_message_not_server_error_5xx :
    (async_get_channel_statistics
        (.error (.httpError 500 "<HttpError 500 Backend Error>"))).get? "error"
      = some (.str "<HttpError 500 Backend Error>") ∧
    (async_get_channel_statistics
        (.error (.httpError 500 "<HttpError 500 Backend Error>"))).get? "error"
      ≠ some (.str "server_error_5xx") := by
  decide

/-- C3 (amended): the uniform failure classification of the client reads is:
a refresh-token failure or a 401 response yields `error = "auth_failed"`;
any other HTTP error yields `error = str(err)` (the exception message, with
no `server_error_5xx` / `http_error_<code>` forms); any non-HTTP failure
yields `error = str(err)`. -/
theorem error_classification (e : FetchErr) :
    (async_get_channel_statistics (.error e)).get? "error"
        = some (.str (match e with
          | .refreshError _ => "auth_failed"
          | .httpError s m => if s = 401 then "auth_failed" else m
          | .otherError m => m)) ∧
    (async_get_analytics_metrics (.error e)).get? "error"
        = some (.str (match e with
          | .refreshError _ => "auth_failed"
          | .httpError s m => if s = 401 then "auth_failed" else m
          | .otherError m => m)) := by
  cases e with
  | refreshError m => exact ⟨rfl, rfl⟩
  | httpError s m =>
      by_cases h : s = 401 <;>
        simp [async_get_channel_statistics, async_get_analytics_metrics,
          errorDict, Dict.get?, h]
  | otherError m => exact ⟨rfl, rfl⟩

/-- C4 (code evaluated at the failing input): in a fully successful poll,
the channel-statistics source's contributions are stored under the
unsuffixed keys `subscriber_count` / `video_count` / `view_count`, the
suffixed `_lifetime` keys the sensors read are absent from the merged
result, no sensor reads the unsuffixed keys, and the lifetime sensor
therefore renders no value — contrary to the claim that every merged key
carries its source's suffix and equals the keys the sensors read. -/
theorem lifetime_keys_unsuffixed_and_unread :
    (async_get_all_metrics pollAllOk).get? "subscriber_count" = some (.num 1000) ∧
    (async_get_all_metrics pollAllOk).get? "video_count" = some (.num 42) ∧
    (async_get_all_metrics pollAllOk).get? "view_count" = some (.num 123456) ∧
    (async_get_all_metrics pollAllOk).get? "subscriber_count_lifetime" = none ∧
    (async_get_all_metrics pollAllOk).get? "video_count_lifetime" = none ∧
    (async_get_all_metrics pollAllOk).get? "view_count_lifetime" = none ∧
    "subscriber_count_lifetime" ∈ sensorMetricKeys ∧
    "subscriber_count" ∉ sensorMetricKeys ∧
    native_value "subscriber_count_lifetime" (some (async_get_all_metrics pollAllOk)) = none := by
  decide

/-- C5 (counterexample): the merged result of a fully successful poll is
composed of only the 30-day analytics and lifetime-statistics sources; its
key set contains none of the recent-videos metric keys the sensors read, so
no recent-videos aggregate is composed into the merged result. -/
theorem merged_result_has_no_recent_videos_source :
    (async_get_all_metrics pollAllOk2).keys
      = ["views_30d", "averageViewDuration_30d", "averageViewPercentage_30d",
         "likes_30d", "dislikes_30d", "comments_30d", "shares_30d",
         "subscribersGained_30d", "subscribersLost_30d", "annotationClicks_30d",
         "annotationClickThroughRate_30d", "estimatedMinutesWatched_30d",
         "subscriber_count", "video_count", "view_count", "channel_title",
         "last_updated"] ∧
    ∀ k ∈ METRICS_RECENT_VIDEOS, (async_get_all_metrics pollAllOk2).get? k = none := by
  decide

/-- C5 (amended): the spec-modelled `get_recent_video_aggregate(n=10)`,
applied to a channel with zero videos, returns the zeroed-defaults record
`{count: 0, total_views: 0, total_likes: 0, total_comments: 0}` and not an
error marker; but it is not among the sources composed into the merged
result (see the counterexample). -/
theorem recent_video_aggregate_zero_videos :
    get_recent_video_aggregate []
      = [("count", .num 0), ("total_views", .num 0),
         ("total_likes", .num 0), ("total_comments", .num 0)] ∧
    (get_recent_video_aggregate []).get? "error" = none := by
  decide

/-- C6 (counterexample): a config entry whose options set
`update_interval_seconds = 60` still yields a coordinator update interval of
3600 seconds, not 60. -/
theorem options_interval_ignored :
    setup_update_interval ⟨some 60⟩ = 3600 ∧ setup_update_interval ⟨some 60⟩ ≠ 60 := by
  decide

/-- C6 (amended): the coordinator created at setup is always given the
default update interval of `DEFAULT_UPDATE_INTERVAL = 3600` seconds; the
options record is never consulted and no clamping exists. -/
theorem update_interval_always_default (opts : EntryOptions) :
    setup_update_interval opts = DEFAULT_UPDATE_INTERVAL ∧
    DEFAULT_UPDATE_INTERVAL = 3600 :=
  ⟨rfl, rfl⟩

/-- C7: in the reauth branch of `async_oauth_create_entry`, every outcome
that updates the stored entry preserves `channel_id`, `channel_title` (and
the registered unique id) and replaces exactly the three token fields with
the reauth credential's values; and whenever the stored channel is not
visible to the new credential, or the registered unique id mismatches the
stored `channel_id`, the flow aborts (no update is performed on any abort
path). -/
theorem reauth_updates_only_tokens (entry : StoredEntry) (data : OAuthData)
    (credsExn validationExn : Bool) (visibleTitle : Option String) :
    (∀ e, reauth_create_entry entry data credsExn validationExn visibleTitle
          = .updateEntry e →
        e.channel_id = entry.channel_id ∧ e.channel_title = entry.channel_title ∧
        e.unique_id = entry.unique_id ∧
        e.refresh_token = data.refresh_token ∧
        e.token = pyOr data.token data.access_token ∧
        e.token_expiry = tokenExpiryStr data.token_expiry) ∧
    (visibleTitle = none →
        ∃ r, reauth_create_entry entry data credsExn validationExn visibleTitle
          = .abort r) ∧
    (∀ cid, entry.channel_id = some cid → entry.unique_id ≠ some cid →
        ∃ r, reauth_create_entry entry data credsExn validationExn visibleTitle
          = .abort r) := by
  refine ⟨?_, ?_, ?_⟩
  · intro e he
    unfold reauth_create_entry at he
    repeat' split at he
    all_goals first
      | exact ReauthOutcome.noConfusion he
      | (injection he with h
         subst h
         simp_all)
  · intro h
    subst h
    unfold reauth_create_entry
    repeat' split
    all_goals first
      | exact ⟨_, rfl⟩
      | simp_all
  · intro cid hc hne
    unfold reauth_create_entry
    rw [hc]
    repeat' split
    all_goals first
      | exact ⟨_, rfl⟩
      | simp_all

/-- C7 (witness): a concrete successful reauth replaces only the token
fields and keeps the channel identity; and with the stored channel not
visible, and with a mismatching unique id, the flow aborts. -/
theorem reauth_updates_only_tokens_witness :
    (reauth_create_entry
        ⟨some "UCaaaaaaaaaaaaaaaaaaaaaa", some "UCaaaaaaaaaaaaaaaaaaaaaa",
         some "Old Title", some "old_rt", some "old_tok", some "old_exp"⟩
        ⟨some "new_rt", some "new_tok", some "new_at", some "new_exp"⟩
        false false (some "Old Title")
      = .updateEntry
        ⟨some "UCaaaaaaaaaaaaaaaaaaaaaa", some "UCaaaaaaaaaaaaaaaaaaaaaa",
         some "Old Title", some "new_rt", some "new_tok", some "new_exp"⟩) ∧
    (⟨some "UCaaaaaaaaaaaaaaaaaaaaaa", some "UCaaaaaaaaaaaaaaaaaaaaaa",
      some "Old Title", some "new_rt", some "new_tok", some "new_exp"⟩ : StoredEntry).channel_id
      = (⟨some "UCaaaaaaaaaaaaaaaaaaaaaa", some "UCaaaaaaaaaaaaaaaaaaaaaa",
          some "Old Title", some "old_rt", some "old_tok", some "old_exp"⟩ : StoredEntry).channel_id ∧
    (∃ r, reauth_create_entry
        ⟨some "UCaaaaaaaaaaaaaaaaaaaaaa", some "UCaaaaaaaaaaaaaaaaaaaaaa",
         some "Old Title", some "old_rt", some "old_tok", some "old_exp"⟩
        ⟨some "new_rt", some "new_tok", some "new_at", some "new_exp"⟩
        false false none = .abort r) ∧
    (∃ r, reauth_create_entry
        ⟨some "UCbbbbbbbbbbbbbbbbbbbbbb", some "UCaaaaaaaaaaaaaaaaaaaaaa",
         some "Old Title", some "old_rt", some "old_tok", some "old_exp"⟩
        ⟨some "new_rt", some "new_tok", some "new_at", some "new_exp"⟩
        false false (some "Old Title") = .abort r) := by
  refine ⟨by decide, ?_, ?_, ?_⟩
  · exact ((reauth_updates_only_tokens
      ⟨some "UCaaaaaaaaaaaaaaaaaaaaaa", some "UCaaaaaaaaaaaaaaaaaaaaaa",
       some "Old Title", some "old_rt", some "old_tok", some "old_exp"⟩
      ⟨some "new_rt", some "new_tok", some "new_at", some "new_exp"⟩
      false false (some "Old Title")).1 _ (by decide)).1
  · exact (reauth_updates_only_tokens
      ⟨some "UCaaaaaaaaaaaaaaaaaaaaaa", some "UCaaaaaaaaaaaaaaaaaaaaaa",
       some "Old Title", some "old_rt", some "old_tok", some "old_exp"⟩
      ⟨some "new_rt", some "new_tok", some "new_at", some "new_exp"⟩
      false false none).2.1 rfl
  · exact (reauth_updates_only_tokens
      ⟨some "UCbbbbbbbbbbbbbbbbbbbbbb", some "UCaaaaaaaaaaaaaaaaaaaaaa",
       some "Old Title", some "old_rt", some "old_tok", some "old_exp"⟩
      ⟨some "new_rt", some "new_tok", some "new_at", some "new_exp"⟩
      false false (some "Old Title")).2.2 "UCaaaaaaaaaaaaaaaaaaaaaa" rfl (by decide)

/-- C8: for every snapshot in which `estimatedMinutesWatched_30d` is present
with a numeric value `v`, the sensor's native value is `v / 60` rounded to
two decimals half-to-even (`divSixty v = v / 60` by the second conjunct). -/
theorem watch_minutes_rendered_as_hours (d : Dict) (v : ℚ)
    (h : d.get? "estimatedMinutesWatched_30d" = some (.num v)) :
    native_value "estimatedMinutesWatched_30d" (some d)
        = some (.num (pyRound2 (divSixty v))) ∧
    divSixty v = v / 60 := by
  refine ⟨?_, divSixty_eq v⟩
  simp [native_value, h]

/-- C8 (witness): a snapshot value of 120 minutes renders as sensor value
2 hours. -/
theorem watch_minutes_rendered_as_hours_witness :
    native_value "estimatedMinutesWatched_30d"
        (some [("estimatedMinutesWatched_30d", .num 120)]) = some (.num 2) := by
  have h := (watch_minutes_rendered_as_hours
    [("estimatedMinutesWatched_30d", .num 120)] 120 (by decide)).1
  rw [h]
  decide

/-- C9: for every metric key and snapshot, a missing snapshot, a missing
key, or a key mapped to null renders the sensor value as `None`
(unknown), never as the number 0. -/
theorem missing_metric_renders_unknown (key : String) (d : Dict)
    (h : d.get? key = none ∨ d.get? key = some .null) :
    native_value key none = none ∧
    native_value key (some d) = none ∧
    native_value key (some d) ≠ some (.num 0) := by
  by_cases hk : key = "estimatedMinutesWatched_30d"
  · subst hk
    rcases h with h | h <;> simp [native_value, h]
  · rcases h with h | h <;> simp [native_value, hk, h]

/-- C9 (witness): with an empty snapshot (and with no snapshot at all), the
`views_30d` sensor renders `None`, not 0. -/
theorem missing_metric_renders_unknown_witness :
    (Dict.get? [] "views_30d" = none ∨ Dict.get? [] "views_30d" = some .null) ∧
    (native_value "views_30d" none = none ∧
     native_value "views_30d" (some []) = none ∧
     native_value "views_30d" (some []) ≠ some (.num 0)) :=
  ⟨Or.inl (by decide), missing_metric_renders_unknown "views_30d" [] (Or.inl (by decide))⟩

/-- C10: the manual channel-entry step accepts a submitted channel id
(storing the stripped id and advancing to the OAuth step) exactly when,
after stripping whitespace, it is non-empty, starts with `"UC"` and is 24
characters long; an empty stripped input re-shows the form with the
`channel_id_required` field error, any other failing input with
`channel_id_invalid_format`; and every accepted id satisfies all three
conditions. -/
theorem channel_entry_validation (raw : Option String) :
    async_step_channel_entry none = .showForm [] ∧
    (pyStrip (raw.getD "") = "" →
      async_step_channel_entry (some raw)
        = .showForm [("channel_id", "channel_id_required")]) ∧
    (pyStrip (raw.getD "") ≠ "" →
      ¬(pyStartsWith (pyStrip (raw.getD "")) "UC" = true ∧
          (pyStrip (raw.getD "")).length = 24) →
      async_step_channel_entry (some raw)
        = .showForm [("channel_id", "channel_id_invalid_format")]) ∧
    (pyStartsWith (pyStrip (raw.getD "")) "UC" = true →
      (pyStrip (raw.getD "")).length = 24 →
      async_step_channel_entry (some raw) = .advanceToOAuth (pyStrip (raw.getD ""))) ∧
    (∀ c, async_step_channel_entry (some raw) = .advanceToOAuth c →
      c = pyStrip (raw.getD "") ∧ c ≠ "" ∧
      pyStartsWith c "UC" = true ∧ c.length = 24) := by
  refine ⟨rfl, ?_, ?_, ?_, ?_⟩
  · intro h
    simp only [async_step_channel_entry]
    rw [if_pos h]
  · intro h1 h2
    have hb : (pyStartsWith (pyStrip (raw.getD "")) "UC"
        && (pyStrip (raw.getD "")).length == 24) = false := by
      cases hA : pyStartsWith (pyStrip (raw.getD "")) "UC" with
      | false => simp
      | true =>
        have hL : (pyStrip (raw.getD "")).length ≠ 24 := fun hl => h2 ⟨hA, hl⟩
        simp [hL]
    simp only [async_step_channel_entry]
    rw [if_neg h1, if_pos (by rw [hb]; rfl)]
  · intro hA hL
    have h1 : pyStrip (raw.getD "") ≠ "" := by
      intro h
      rw [h] at hA
      exact absurd hA (by decide)
    have hb : (pyStartsWith (pyStrip (raw.getD "")) "UC"
        && (pyStrip (raw.getD "")).length == 24) = true := by
      rw [hA, hL]
      rfl
    simp only [async_step_channel_entry]
    rw [if_neg h1, if_neg (by rw [hb]; simp)]
  · intro c hc
    simp only [async_step_channel_entry] at hc
    by_cases h1 : pyStrip (raw.getD "") = ""
    · rw [if_pos h1] at hc
      exact ChannelEntryOutcome.noConfusion hc
    · rw [if_neg h1] at hc
      by_cases hb : (pyStartsWith (pyStrip (raw.getD "")) "UC"
          && (pyStrip (raw.getD "")).length == 24) = true
      · rw [if_neg (by rw [hb]; simp)] at hc
        injection hc with h
        subst h
        have hab := Bool.and_eq_true _ _ |>.mp hb
        exact ⟨rfl, h1, hab.1, by simpa using hab.2⟩
      · have hf : (pyStartsWith (pyStrip (raw.getD "")) "UC"
            && (pyStrip (raw.getD "")).length == 24) = false := by
          cases hB : (pyStartsWith (pyStrip (raw.getD "")) "UC"
              && (pyStrip (raw.getD "")).length == 24) with
          | true => exact absurd hB hb
          | false => rfl
        rw [if_pos (by rw [hf]; rfl)] at hc
        exact ChannelEntryOutcome.noConfusion hc

/-- C10 (witness): a padded well-formed id advances with the stripped id
stored; blank input yields the required-field error; a malformed id yields
the invalid-format error. -/
theorem channel_entry_validation_witness :
    async_step_channel_entry (some (some " UCabcdefghijklmnopqrstuv "))
      = .advanceToOAuth "UCabcdefghijklmnopqrstuv" ∧
    async_step_channel_entry (some (some "   "))
      = .showForm [("channel_id", "channel_id_required")] ∧
    async_step_channel_entry (some (some "youtube.com/mychannel"))
      = .showForm [("channel_id", "channel_id_invalid_format")] := by
  refine ⟨?_, ?_, ?_⟩
  · exact (channel_entry_validation (some " UCabcdefghijklmnopqrstuv ")).2.2.2.1
      (by decide) (by decide)
  · exact (channel_entry_validation (some "   ")).2.1 (by decide)
  · exact (channel_entry_validation (some "youtube.com/mychannel")).2.2.1
      (by decide) (by decide)

end YTA
